import Mathlib

/-! Verification of the SafeStreets CV backend's segmentation-to-assessment
decision engine (src/cv-backend/main.py) against its specification.

The Python functions `analyze_segmentation`, `determine_quality`,
`analyze_sidewalk` and `analyze_batch` are shallowly embedded as Lean
functions.  Python floats (pixel percentages, the fixed 0.85 confidence)
are modelled as exact rationals `ℚ`; the per-pixel label map (a 2-D numpy
array used only through `size`, `np.unique` and element-equality counting)
is modelled as the flattened list of its class-ids; Python dicts with
string keys are modelled as association lists in insertion order
(`np.unique` iterates distinct values in ascending order, so insertion
order is ascending class-id order); the external image-acquisition /
classification step, which is the only failure source inside the batch
loop's `try`, is modelled as an `Except` carried by each batch item.  All
embedded functions are total because the Python core raises no exception
of its own (in particular the per-class loop never divides by zero: it
iterates over the distinct values present, of which an empty map has
none). -/

namespace SafeStreets

/-- Cityscapes class labels (main.py lines 44-49), index = class-id. -/
def CITYSCAPES_CLASSES : List String :=
  ["road", "sidewalk", "building", "wall", "fence", "pole",
   "traffic light", "traffic sign", "vegetation", "terrain",
   "sky", "person", "rider", "car", "truck", "bus", "train",
   "motorcycle", "bicycle"]

/-- Classes relevant for sidewalk analysis (main.py line 52). -/
def SIDEWALK_CLASSES : List String := ["sidewalk", "road"]

/-- Fixed obstruction-class enumeration (main.py line 53). -/
def OBSTRUCTION_CLASSES : List String :=
  ["car", "truck", "bus", "motorcycle", "bicycle", "person"]

/-- Vegetation classes (main.py line 54); not used by the decision logic. -/
def VEGETATION_CLASSES : List String := ["vegetation", "terrain"]

/-- Value of a `class_pixel_counts` entry (main.py lines 126-129). -/
structure ClassStat where
  pixels : ℕ
  percentage : ℚ
deriving DecidableEq

/-- An obstruction record (main.py lines 139-142); `cls` is the Python
dict key named class. -/
structure Obstruction where
  cls : String
  percentage : ℚ
deriving DecidableEq

/-- The dict returned by `analyze_segmentation` (main.py lines 144-149). -/
structure SegAnalysis where
  sidewalk_percentage : ℚ
  road_percentage : ℚ
  obstructions : List Obstruction
  class_distribution : List (String × ClassStat)
deriving DecidableEq

/-- Pydantic model `Detection` (main.py lines 62-65). -/
structure Detection where
  class_name : String
  confidence : ℚ
  pixel_percentage : ℚ
deriving DecidableEq

/-- Pydantic model `AnalysisResult` (main.py lines 68-75). -/
structure AnalysisResult where
  imageId : String
  sidewalkDetected : Bool
  confidence : String
  issues : List String
  quality : String
  notes : String
  detections : List Detection
deriving DecidableEq

/-- Model of `np.unique`: the distinct values of the array, in ascending
order. -/
def npUnique (l : List ℕ) : List ℕ := l.dedup.insertionSort (· ≤ ·)

/-- Rounding of a rational to the nearest integer, ties to even — the
rounding used by Python float formatting. -/
def roundHalfEven (x : ℚ) : ℤ :=
  let f := x.floor
  if x - f < 1/2 then f
  else if 1/2 < x - f then f + 1
  else if f % 2 = 0 then f else f + 1

/-- Model of Python formatting a nonnegative float to one decimal place
(the one-decimal format used in the issue and notes strings). -/
def fmtPct1 (q : ℚ) : String :=
  let n := roundHalfEven (q * 10)
  toString (n / 10) ++ "." ++ toString (n % 10)

/-- Percentage of the image occupied by one class:
`percentage = (pixel_count / total_pixels) * 100` (main.py line 123), with
`pixel_count = np.sum(segmentation_map == class_id)` modelled as the list
count of `class_id`. -/
def class_percentage (segmentation_map : List ℕ) (class_id : ℕ) : ℚ :=
  ((segmentation_map.count class_id : ℚ) / (segmentation_map.length : ℚ)) * 100

/-- Body of the per-class loop of `analyze_segmentation` (main.py lines
119-129): a distribution entry for `class_id` when the id is inside the
19-entry vocabulary and its percentage clears the 0.5% significance
floor. -/
def class_entry (segmentation_map : List ℕ) (class_id : ℕ) : Option (String × ClassStat) :=
  if class_id < CITYSCAPES_CLASSES.length then
    let class_name := CITYSCAPES_CLASSES.getD class_id ""
    let pixel_count := segmentation_map.count class_id
    let percentage := class_percentage segmentation_map class_id
    if percentage > 0.5 then some (class_name, ⟨pixel_count, percentage⟩)
    else none
  else none

/-- Embedding of `analyze_segmentation` (main.py lines 113-149): reduce the
label map to per-class pixel counts and percentages (kept only above the
0.5% significance floor, and only for class-ids inside the 19-entry
vocabulary), then read off the sidewalk/road percentages and the
obstruction list in the fixed `OBSTRUCTION_CLASSES` order. -/
def analyze_segmentation (segmentation_map : List ℕ) : SegAnalysis :=
  let class_pixel_counts : List (String × ClassStat) :=
    (npUnique segmentation_map).filterMap (class_entry segmentation_map)
  let sidewalk_percentage :=
    ((class_pixel_counts.lookup "sidewalk").map ClassStat.percentage).getD 0
  let road_percentage :=
    ((class_pixel_counts.lookup "road").map ClassStat.percentage).getD 0
  let obstructions := OBSTRUCTION_CLASSES.filterMap fun obstruction_class =>
    (class_pixel_counts.lookup obstruction_class).map fun st =>
      Obstruction.mk obstruction_class st.percentage
  ⟨sidewalk_percentage, road_percentage, obstructions, class_pixel_counts⟩

/-- Sum of the obstruction percentages (main.py line 162). -/
def total_obstruction_pct_of (obstructions : List Obstruction) : ℚ :=
  (obstructions.map Obstruction.percentage).sum

/-- Per-obstruction detail issues appended last by `determine_quality`
(main.py lines 192-194): one line per obstruction above 5% of the image. -/
def obstruction_detail_issues (obstructions : List Obstruction) : List String :=
  (obstructions.filter fun obs => decide (obs.percentage > 5)).map fun obs =>
    obs.cls ++ " detected (" ++ fmtPct1 obs.percentage ++ "% of image)"

/-- Embedding of `determine_quality` (main.py lines 152-196).  The Python
builds `issues` by appending the band issue (if any) and then the
per-obstruction details, so each branch here yields the band issue consed
onto the detail list; the no-sidewalk case (`sidewalk_pct ≤ 5`) returns
early before any of that. -/
def determine_quality (sidewalk_pct : ℚ) (obstructions : List Obstruction) :
    String × String × List String :=
  if sidewalk_pct > 5 then
    let total_obstruction_pct := total_obstruction_pct_of obstructions
    let details := obstruction_detail_issues obstructions
    if sidewalk_pct > 20 then
      if total_obstruction_pct > 15 then
        ("poor", "high",
          (toString obstructions.length ++ " obstruction(s) detected blocking sidewalk") :: details)
      else if total_obstruction_pct > 5 then
        ("fair", "medium", "Minor obstructions detected on sidewalk" :: details)
      else
        ("good", "high", details)
    else if sidewalk_pct > 10 then
      if total_obstruction_pct > 10 then
        ("fair", "medium", "Sidewalk partially visible with obstructions" :: details)
      else
        ("fair", "medium", "Sidewalk partially visible" :: details)
    else
      ("poor", "medium", "Limited sidewalk visible in image" :: details)
  else
    ("none", "low", ["No sidewalk visible in image"])

/-- Embedding of the pure part of the `/analyze` endpoint `analyze_sidewalk`
(main.py lines 264-295), from the segmentation map on: analysis, quality
verdict, detection list (distribution entries above 1%, confidence fixed at
0.85), notes string, and the empty-issues sentinel substitution. -/
def analyze_sidewalk (image_id : String) (segmentation_map : List ℕ) : AnalysisResult :=
  let analysis := analyze_segmentation segmentation_map
  let qci := determine_quality analysis.sidewalk_percentage analysis.obstructions
  let quality := qci.1
  let confidence := qci.2.1
  let issues := qci.2.2
  let detections :=
    (analysis.class_distribution.filter fun e => decide (e.2.percentage > 1)).map fun e =>
      Detection.mk e.1 0.85 e.2.percentage
  let sidewalk_detected := quality != "none"
  let obstruction_count := analysis.obstructions.length
  let notes := "AI detected: " ++
    (if sidewalk_detected then
      "sidewalk present (" ++ fmtPct1 analysis.sidewalk_percentage ++ "% of image)"
    else "no sidewalk") ++ ", " ++ toString obstruction_count ++ " obstruction(s)"
  { imageId := image_id
    sidewalkDetected := sidewalk_detected
    confidence := confidence
    issues := if issues.isEmpty then ["No issues detected"] else issues
    quality := quality
    notes := notes
    detections := detections }

/-- One item of a batch request: the image id together with the outcome of
the external fetch-and-classify step (out of the engine's scope), which
either yields a label map or fails with a message — the only failure source
inside the batch loop's `try` (main.py lines 316-320). -/
structure BatchItem where
  image_id : String
  acquired : Except String (List ℕ)

/-- Embedding of `analyze_batch` (main.py lines 308-332): truncate to the
first 10 items, run each through `analyze_sidewalk`, and replace a failing
item by the degraded error record built at lines 322-330. -/
def analyze_batch (requests : List BatchItem) : List AnalysisResult :=
  (requests.take 10).map fun req =>
    match req.acquired with
    | Except.ok segmentation_map => analyze_sidewalk req.image_id segmentation_map
    | Except.error e =>
        { imageId := req.image_id
          sidewalkDetected := false
          confidence := "low"
          issues := ["Analysis error: " ++ e]
          quality := "none"
          notes := "Error during automated analysis"
          detections := [] }

/-- The spec's banded rule table for a detected sidewalk (spec §4.3 step 3,
claim C1), written with the claim's explicit interval bounds: first
matching rule wins, `total` is the summed obstruction percentage, `n` the
obstruction count.  The final arm is unreachable for `sidewalk_pct > 5`. -/
def specBandRule (sidewalk_pct total : ℚ) (n : ℕ) : String × String × List String :=
  if sidewalk_pct > 20 then
    if total > 15 then
      ("poor", "high", [toString n ++ " obstruction(s) detected blocking sidewalk"])
    else if total > 5 then
      ("fair", "medium", ["Minor obstructions detected on sidewalk"])
    else
      ("good", "high", [])
  else if 10 < sidewalk_pct ∧ sidewalk_pct ≤ 20 then
    if total > 10 then
      ("fair", "medium", ["Sidewalk partially visible with obstructions"])
    else
      ("fair", "medium", ["Sidewalk partially visible"])
  else if 5 < sidewalk_pct ∧ sidewalk_pct ≤ 10 then
    ("poor", "medium", ["Limited sidewalk visible in image"])
  else
    ("none", "low", [])

/-- Rank of a confidence tier in the ordering low < medium < high. -/
def confidenceRank (c : String) : ℕ :=
  if c = "low" then 0 else if c = "medium" then 1 else if c = "high" then 2 else 0

/-- A label map used as concrete witness input: 3 sidewalk pixels (id 1),
3 road pixels (id 0), 4 car pixels (id 13) — sidewalk 30%, car 40%. -/
def demo_map : List ℕ := [1, 1, 1, 0, 0, 0, 13, 13, 13, 13]

/- The Batteries rational operations are irreducible by default, which
blocks `decide` on concrete pipeline evaluations; restore the default
transparency locally for this development. -/
attribute [local semireducible] Rat.mul Rat.inv Rat.add Rat.sub Rat.ofScientific

/-- Membership in `npUnique` is membership in the array. -/
lemma mem_npUnique {a : ℕ} {l : List ℕ} : a ∈ npUnique l ↔ a ∈ l := by
  unfold npUnique
  rw [(List.perm_insertionSort _ _).mem_iff, List.mem_dedup]

lemma analyze_segmentation_class_distribution (lm : List ℕ) :
    (analyze_segmentation lm).class_distribution =
      (npUnique lm).filterMap (class_entry lm) := rfl

lemma analyze_segmentation_obstructions (lm : List ℕ) :
    (analyze_segmentation lm).obstructions =
      OBSTRUCTION_CLASSES.filterMap fun obstruction_class =>
        (((npUnique lm).filterMap (class_entry lm)).lookup obstruction_class).map fun st =>
          Obstruction.mk obstruction_class st.percentage := rfl

lemma cityscapes_length : CITYSCAPES_CLASSES.length = 19 := rfl

/-- On a detected sidewalk, `determine_quality` splits into the spec's band
rule table followed by the per-obstruction detail issues. -/
lemma determine_quality_band_split (sidewalk_pct : ℚ) (obstructions : List Obstruction)
    (h : 5 < sidewalk_pct) :
    determine_quality sidewalk_pct obstructions =
      ((specBandRule sidewalk_pct (total_obstruction_pct_of obstructions) obstructions.length).1,
       (specBandRule sidewalk_pct (total_obstruction_pct_of obstructions) obstructions.length).2.1,
       (specBandRule sidewalk_pct (total_obstruction_pct_of obstructions) obstructions.length).2.2
         ++ obstruction_detail_issues obstructions) := by
  simp only [determine_quality, specBandRule, gt_iff_lt]
  by_cases h20 : (20:ℚ) < sidewalk_pct
  · simp only [h, h20, if_true]
    split_ifs <;> rfl
  · have h20le : sidewalk_pct ≤ 20 := not_lt.mp h20
    by_cases h10 : (10:ℚ) < sidewalk_pct
    · simp only [h, h20, h10, h20le, if_true, if_false, and_self, and_true, true_and,
        if_pos, if_neg, not_false_iff]
      split_ifs <;> rfl
    · have h10le : sidewalk_pct ≤ 10 := not_lt.mp h10
      simp only [h, h20, h10, h10le, and_self, and_true, true_and, false_and, and_false,
        if_true, if_false]
      rfl

/-- Inversion of the per-class loop body: a produced entry means the id is
in the vocabulary, its percentage clears the floor, and the entry is the
name paired with (count, percentage). -/
lemma class_entry_eq_some {lm : List ℕ} {class_id : ℕ} {e : String × ClassStat}
    (hfe : class_entry lm class_id = some e) :
    class_id < CITYSCAPES_CLASSES.length ∧ 0.5 < class_percentage lm class_id ∧
      e = (CITYSCAPES_CLASSES.getD class_id "",
           ⟨lm.count class_id, class_percentage lm class_id⟩) := by
  simp only [class_entry] at hfe
  by_cases h19 : class_id < CITYSCAPES_CLASSES.length
  · rw [if_pos h19] at hfe
    by_cases hp : class_percentage lm class_id > 0.5
    · rw [if_pos hp] at hfe
      exact ⟨h19, hp, (Option.some.inj hfe).symm⟩
    · rw [if_neg hp] at hfe
      exact Option.noConfusion hfe
  · rw [if_neg h19] at hfe
    exact Option.noConfusion hfe

/-- Converse: in-vocabulary ids above the floor produce their entry. -/
lemma class_entry_eq_some_of {lm : List ℕ} {class_id : ℕ}
    (h19 : class_id < CITYSCAPES_CLASSES.length)
    (hp : class_percentage lm class_id > 0.5) :
    class_entry lm class_id =
      some (CITYSCAPES_CLASSES.getD class_id "",
            ⟨lm.count class_id, class_percentage lm class_id⟩) := by
  simp only [class_entry]
  rw [if_pos h19, if_pos hp]

/-- Fusing a filter-then-map over a filterMap into one filterMap. -/
lemma filter_map_filterMap {α β γ : Type} (L : List α) (f : α → Option β)
    (p : β → Bool) (g : β → γ) :
    ((L.filterMap f).filter p).map g =
      L.filterMap fun a => (f a).bind fun b => if p b then some (g b) else none := by
  induction L with
  | nil => rfl
  | cons a t ih =>
    cases hfa : f a with
    | none => simp [List.filterMap_cons, hfa, ih]
    | some b =>
      cases hpb : p b <;> simp [List.filterMap_cons, hfa, hpb, List.filter_cons, ih]

/-- The detail issues of an assessment are the per-class lines in the fixed
`OBSTRUCTION_CLASSES` enumeration order, not the distribution order. -/
lemma obstruction_detail_issues_fixed_order (lm : List ℕ) :
    obstruction_detail_issues (analyze_segmentation lm).obstructions =
      OBSTRUCTION_CLASSES.filterMap fun c =>
        ((analyze_segmentation lm).class_distribution.lookup c).bind fun st =>
          if st.percentage > 5 then
            some (c ++ " detected (" ++ fmtPct1 st.percentage ++ "% of image)")
          else none := by
  rw [analyze_segmentation_class_distribution]
  unfold obstruction_detail_issues
  rw [analyze_segmentation_obstructions, filter_map_filterMap]
  apply List.filterMap_congr
  intro c _
  cases hl : (((npUnique lm).filterMap (class_entry lm)).lookup c) with
  | none => simp [hl]
  | some st =>
    simp only [hl, Option.map_some', Option.some_bind]
    by_cases hp : st.percentage > 5
    · rw [if_pos (by simpa using hp), if_pos hp]
    · rw [if_neg (by simpa using hp), if_neg hp]

/-- The issues field of a single-image result is the classifier's issues
with the empty list replaced by the sentinel. -/
lemma analyze_sidewalk_issues (image_id : String) (lm : List ℕ) :
    (analyze_sidewalk image_id lm).issues =
      if (determine_quality (analyze_segmentation lm).sidewalk_percentage
           (analyze_segmentation lm).obstructions).2.2.isEmpty
      then ["No issues detected"]
      else (determine_quality (analyze_segmentation lm).sidewalk_percentage
             (analyze_segmentation lm).obstructions).2.2 := rfl

/-- The confidence component of `determine_quality`, as a standalone
if-tree (the issue lists do not influence it). -/
lemma determine_quality_confidence (p : ℚ) (obstructions : List Obstruction) :
    (determine_quality p obstructions).2.1 =
      if p > 5 then
        if p > 20 then
          if total_obstruction_pct_of obstructions > 15 then "high"
          else if total_obstruction_pct_of obstructions > 5 then "medium"
          else "high"
        else "medium"
      else "low" := by
  simp only [determine_quality]
  split_ifs <;> rfl

/-- Claim C1: for every sidewalkPct > 5 and every obstruction list,
`determine_quality` returns exactly the verdict of the spec's banded rule
table (first matching rule wins), with the band issue followed by the
per-obstruction detail issues. -/
theorem determine_quality_matches_band_table (sidewalk_pct : ℚ)
    (obstructions : List Obstruction) (h : 5 < sidewalk_pct) :
    determine_quality sidewalk_pct obstructions =
      ((specBandRule sidewalk_pct (total_obstruction_pct_of obstructions) obstructions.length).1,
       (specBandRule sidewalk_pct (total_obstruction_pct_of obstructions) obstructions.length).2.1,
       (specBandRule sidewalk_pct (total_obstruction_pct_of obstructions) obstructions.length).2.2
         ++ obstruction_detail_issues obstructions) :=
  determine_quality_band_split sidewalk_pct obstructions h

/-- Witness for C1 at sidewalkPct = 25 with a single 18% car obstruction
(the spec's concrete scenario B). -/
theorem determine_quality_matches_band_table_witness :
    5 < (25:ℚ) ∧
    determine_quality 25 [Obstruction.mk "car" 18] =
      ((specBandRule 25 (total_obstruction_pct_of [Obstruction.mk "car" 18])
          [Obstruction.mk "car" 18].length).1,
       (specBandRule 25 (total_obstruction_pct_of [Obstruction.mk "car" 18])
          [Obstruction.mk "car" 18].length).2.1,
       (specBandRule 25 (total_obstruction_pct_of [Obstruction.mk "car" 18])
          [Obstruction.mk "car" 18].length).2.2
         ++ obstruction_detail_issues [Obstruction.mk "car" 18]) :=
  ⟨by norm_num,
   determine_quality_matches_band_table 25 [Obstruction.mk "car" 18] (by norm_num)⟩

/-- Claim C2: `analyze_batch` maps the input truncated to its first 10
items, one result per item in the input order, never failing as a whole; a
failing item is replaced by the degraded error record (quality none,
confidence low, sidewalkDetected false, empty detections, the single
formatted error issue, fixed notes) while other items are processed
normally. -/
theorem analyze_batch_isolation_order (requests : List BatchItem) :
    (analyze_batch requests).length = min requests.length 10
    ∧ analyze_batch requests =
        (requests.take 10).map fun req =>
          match req.acquired with
          | Except.ok segmentation_map => analyze_sidewalk req.image_id segmentation_map
          | Except.error e =>
              { imageId := req.image_id
                sidewalkDetected := false
                confidence := "low"
                issues := ["Analysis error: " ++ e]
                quality := "none"
                notes := "Error during automated analysis"
                detections := [] } :=
  ⟨by simp [analyze_batch, List.length_take, Nat.min_comm], rfl⟩

/-- Claim C3: whenever the measured sidewalk percentage is at most 5, the
assessment short-circuits to quality none, confidence low, the single
no-sidewalk issue, and sidewalkDetected = false. -/
theorem no_sidewalk_short_circuit (image_id : String) (segmentation_map : List ℕ)
    (h : (analyze_segmentation segmentation_map).sidewalk_percentage ≤ 5) :
    (analyze_sidewalk image_id segmentation_map).quality = "none"
    ∧ (analyze_sidewalk image_id segmentation_map).confidence = "low"
    ∧ (analyze_sidewalk image_id segmentation_map).issues = ["No sidewalk visible in image"]
    ∧ (analyze_sidewalk image_id segmentation_map).sidewalkDetected = false := by
  have hq : determine_quality (analyze_segmentation segmentation_map).sidewalk_percentage
      (analyze_segmentation segmentation_map).obstructions =
      ("none", "low", ["No sidewalk visible in image"]) := by
    unfold determine_quality
    rw [if_neg (by simpa using not_lt.mpr h)]
  simp [analyze_sidewalk, hq]

/-- Witness for C3: an all-road label map has sidewalk percentage 0. -/
theorem no_sidewalk_short_circuit_witness :
    (analyze_segmentation [0, 0, 0, 0]).sidewalk_percentage ≤ 5
    ∧ ((analyze_sidewalk "img" [0, 0, 0, 0]).quality = "none"
      ∧ (analyze_sidewalk "img" [0, 0, 0, 0]).confidence = "low"
      ∧ (analyze_sidewalk "img" [0, 0, 0, 0]).issues = ["No sidewalk visible in image"]
      ∧ (analyze_sidewalk "img" [0, 0, 0, 0]).sidewalkDetected = false) :=
  ⟨by decide, no_sidewalk_short_circuit "img" [0, 0, 0, 0] (by decide)⟩

/-- Claim C4 counterexample: a LabelMap of size 0 does NOT fail — the
engine has no InvalidInput error path, and on the empty map it silently
produces an ordinary result (the no-sidewalk verdict), contrary to the
claim that the call must fail rather than produce a result. -/
theorem empty_map_silently_produces_result :
    analyze_sidewalk "img" [] =
      { imageId := "img"
        sidewalkDetected := false
        confidence := "low"
        issues := ["No sidewalk visible in image"]
        quality := "none"
        notes := "AI detected: no sidewalk, 0 obstruction(s)"
        detections := [] } := by rfl

/-- Claim C4 as amended: for every image id, the assessment of a size-0
LabelMap does not fail and does not divide by zero (the per-class loop
iterates over no distinct values): it returns the ordinary no-sidewalk
result with quality none, confidence low, no detections. -/
theorem empty_map_yields_no_sidewalk_result (image_id : String) :
    analyze_sidewalk image_id [] =
      { imageId := image_id
        sidewalkDetected := false
        confidence := "low"
        issues := ["No sidewalk visible in image"]
        quality := "none"
        notes := "AI detected: no sidewalk, 0 obstruction(s)"
        detections := [] } := by rfl

/-- Claim C5: for a non-empty LabelMap the distribution contains exactly
the entries (className, (pixelCount, percentage)) of class-ids below 19
whose percentage pixelCount/totalPixels*100 strictly exceeds 0.5; ids ≥ 19
contribute nothing (they are silently ignored, with no error); the
extractor is a pure function of the LabelMap, hence deterministic and
side-effect free. -/
theorem distribution_entry_characterization (lm : List ℕ) (hne : lm ≠ [])
    (e : String × ClassStat) :
    e ∈ (analyze_segmentation lm).class_distribution ↔
      ∃ class_id, class_id < 19 ∧ 0.5 < class_percentage lm class_id ∧
        e = (CITYSCAPES_CLASSES.getD class_id "",
             ⟨lm.count class_id, class_percentage lm class_id⟩) := by
  rw [analyze_segmentation_class_distribution, List.mem_filterMap]
  constructor
  · rintro ⟨class_id, hmem, hfe⟩
    obtain ⟨h19, hp, he⟩ := class_entry_eq_some hfe
    exact ⟨class_id, cityscapes_length ▸ h19, hp, he⟩
  · rintro ⟨class_id, h19, hp, rfl⟩
    refine ⟨class_id, ?_, class_entry_eq_some_of (cityscapes_length ▸ h19) hp⟩
    rw [mem_npUnique]
    have hcount : 0 < lm.count class_id := by
      rcases Nat.eq_zero_or_pos (lm.count class_id) with h0 | h0
      · rw [class_percentage, h0] at hp
        norm_num at hp
      · exact h0
    exact List.count_pos_iff.mp hcount

/-- Witness for C5 on the demo map: the sidewalk entry (3 pixels, 30%). -/
theorem distribution_entry_characterization_witness :
    demo_map ≠ [] ∧
    ((("sidewalk", (⟨3, 30⟩ : ClassStat)) ∈ (analyze_segmentation demo_map).class_distribution) ↔
      ∃ class_id, class_id < 19 ∧ 0.5 < class_percentage demo_map class_id ∧
        ("sidewalk", (⟨3, 30⟩ : ClassStat)) =
          (CITYSCAPES_CLASSES.getD class_id "",
           ⟨demo_map.count class_id, class_percentage demo_map class_id⟩)) :=
  ⟨by decide, distribution_entry_characterization demo_map (by decide) _⟩

/-- Claim C6: for a detected sidewalk, the issue list is the band issue(s)
followed by exactly one line "(class) detected ((pct to 1 decimal)% of
image)" per obstruction above 5%, in the fixed car, truck, bus, motorcycle,
bicycle, person order — not the distribution's iteration order. -/
theorem obstruction_issues_fixed_order (lm : List ℕ)
    (h : 5 < (analyze_segmentation lm).sidewalk_percentage) :
    (determine_quality (analyze_segmentation lm).sidewalk_percentage
        (analyze_segmentation lm).obstructions).2.2 =
      (specBandRule (analyze_segmentation lm).sidewalk_percentage
        (total_obstruction_pct_of (analyze_segmentation lm).obstructions)
        (analyze_segmentation lm).obstructions.length).2.2
      ++ OBSTRUCTION_CLASSES.filterMap fun c =>
          ((analyze_segmentation lm).class_distribution.lookup c).bind fun st =>
            if st.percentage > 5 then
              some (c ++ " detected (" ++ fmtPct1 st.percentage ++ "% of image)")
            else none := by
  rw [determine_quality_band_split _ _ h]
  rw [← obstruction_detail_issues_fixed_order]

/-- Witness for C6 on the demo map (sidewalk 30%, car 40%). -/
theorem obstruction_issues_fixed_order_witness :
    5 < (analyze_segmentation demo_map).sidewalk_percentage ∧
    (determine_quality (analyze_segmentation demo_map).sidewalk_percentage
        (analyze_segmentation demo_map).obstructions).2.2 =
      (specBandRule (analyze_segmentation demo_map).sidewalk_percentage
        (total_obstruction_pct_of (analyze_segmentation demo_map).obstructions)
        (analyze_segmentation demo_map).obstructions.length).2.2
      ++ OBSTRUCTION_CLASSES.filterMap fun c =>
          ((analyze_segmentation demo_map).class_distribution.lookup c).bind fun st =>
            if st.percentage > 5 then
              some (c ++ " detected (" ++ fmtPct1 st.percentage ++ "% of image)")
            else none :=
  ⟨by decide, obstruction_issues_fixed_order demo_map (by decide)⟩

/-- Claim C7: every distribution entry's percentage exceeds the 0.5
significance floor; every detection has pixelPercentage > 1 and confidence
fixed at 0.85; and the detections are exactly the distribution entries with
percentage above 1. -/
theorem significance_floor_and_detections (image_id : String) (lm : List ℕ) :
    ((analyze_segmentation lm).class_distribution.all fun e =>
      decide (e.2.percentage > 0.5)) = true
    ∧ ((analyze_sidewalk image_id lm).detections.all fun d =>
        decide (d.pixel_percentage > 1) && decide (d.confidence = 0.85)) = true
    ∧ (analyze_sidewalk image_id lm).detections =
        ((analyze_segmentation lm).class_distribution.filter fun e =>
          decide (e.2.percentage > 1)).map fun e => Detection.mk e.1 0.85 e.2.percentage := by
  refine ⟨?_, ?_, rfl⟩
  · rw [List.all_eq_true]
    intro e he
    rw [analyze_segmentation_class_distribution, List.mem_filterMap] at he
    obtain ⟨class_id, _, hfe⟩ := he
    obtain ⟨h19, hp, he⟩ := class_entry_eq_some hfe
    subst he
    simpa using hp
  · rw [List.all_eq_true]
    intro d hd
    have hdet : (analyze_sidewalk image_id lm).detections =
        ((analyze_segmentation lm).class_distribution.filter fun e =>
          decide (e.2.percentage > 1)).map fun e => Detection.mk e.1 0.85 e.2.percentage := rfl
    rw [hdet, List.mem_map] at hd
    obtain ⟨e, he, rfl⟩ := hd
    rw [List.mem_filter] at he
    simpa using he.2

/-- Claim C8: every result of the single-image entry point has a non-empty
issues list, and it is exactly the sentinel ["No issues detected"] when the
quality classifier produced no issues (the good-quality sub-case), else the
classifier's issues unchanged. -/
theorem issues_nonempty_and_sentinel (image_id : String) (lm : List ℕ) :
    (analyze_sidewalk image_id lm).issues.isEmpty = false
    ∧ (analyze_sidewalk image_id lm).issues =
        (if (determine_quality (analyze_segmentation lm).sidewalk_percentage
              (analyze_segmentation lm).obstructions).2.2.isEmpty
         then ["No issues detected"]
         else (determine_quality (analyze_segmentation lm).sidewalk_percentage
                (analyze_segmentation lm).obstructions).2.2) := by
  refine ⟨?_, analyze_sidewalk_issues image_id lm⟩
  rw [analyze_sidewalk_issues]
  cases hb : (determine_quality (analyze_segmentation lm).sidewalk_percentage
      (analyze_segmentation lm).obstructions).2.2.isEmpty <;> simp [hb]

/-- Claim C9: for a fixed obstruction list the reported confidence is
monotonically non-decreasing in the sidewalk percentage (in the ordering
low < medium < high), in particular across the band boundaries 5, 10, 20. -/
theorem confidence_monotone_in_sidewalk (obstructions : List Obstruction) (p q : ℚ)
    (hpq : p ≤ q) :
    confidenceRank (determine_quality p obstructions).2.1 ≤
      confidenceRank (determine_quality q obstructions).2.1 := by
  rw [determine_quality_confidence, determine_quality_confidence]
  split_ifs <;> first | decide | linarith

/-- Witness for C9 at p = 7, q = 25 with no obstructions. -/
theorem confidence_monotone_in_sidewalk_witness :
    (7:ℚ) ≤ 25 ∧
    confidenceRank (determine_quality 7 []).2.1 ≤
      confidenceRank (determine_quality 25 []).2.1 :=
  ⟨by norm_num, confidence_monotone_in_sidewalk [] 7 25 (by norm_num)⟩

/-- Claim C10: in every produced result — single-image or batch (degraded
records included) — sidewalkDetected holds exactly when quality is not
none; the single-image path derives it as the comparison quality ≠ none. -/
theorem sidewalk_detected_iff_quality_not_none :
    (∀ image_id lm, ((analyze_sidewalk image_id lm).sidewalkDetected = true ↔
        (analyze_sidewalk image_id lm).quality ≠ "none"))
    ∧ ∀ requests : List BatchItem, ((analyze_batch requests).all fun r =>
        r.sidewalkDetected == (r.quality != "none")) = true := by
  constructor
  · intro image_id lm
    have hd : (analyze_sidewalk image_id lm).sidewalkDetected =
        ((analyze_sidewalk image_id lm).quality != "none") := rfl
    rw [hd]
    exact bne_iff_ne
  · intro requests
    rw [List.all_eq_true]
    intro r hr
    have hb : analyze_batch requests =
        (requests.take 10).map fun req =>
          match req.acquired with
          | Except.ok segmentation_map => analyze_sidewalk req.image_id segmentation_map
          | Except.error e =>
              { imageId := req.image_id
                sidewalkDetected := false
                confidence := "low"
                issues := ["Analysis error: " ++ e]
                quality := "none"
                notes := "Error during automated analysis"
                detections := [] } := rfl
    rw [hb, List.mem_map] at hr
    obtain ⟨req, _, rfl⟩ := hr
    cases hacq : req.acquired with
    | ok segmentation_map =>
      simp only [hacq]
      have hd : (analyze_sidewalk req.image_id segmentation_map).sidewalkDetected =
          ((analyze_sidewalk req.image_id segmentation_map).quality != "none") := rfl
      rw [hd]
      exact beq_self_eq_true _
    | error e =>
      simp only [hacq]
      rfl

end SafeStreets
